import Mathlib

/-!
Shallow embedding of `go/vt/vtgate/planbuilder/vindex.go`: the vindex
capability interfaces (`Unique`, `NonUnique`, `Reversible`, `Functional`,
`Lookup`), the capability check `IsUnique`, and the constructor registry
with its operations `Register` and `CreateVindex`.
-/

namespace Planbuilder

/-- The signature of a method named `Map` on a Go type. `Unique` declares
`Map(VCursor, []interface{}) ([][]byte, error)` while `NonUnique` declares
`Map(VCursor, []interface{}) ([][][]byte, error)`; a Go type has at most one
method per name, so its `Map` method, if any, has exactly one of the two
signatures. -/
inductive MapSig where
  | uniqueSig
  | nonUniqueSig
deriving DecidableEq

/-- The method set of a concrete Go type implementing the base `Vindex`
interface, restricted to the methods the optional capability interfaces
mention: an optional `Map` method (with one of the two possible signatures),
and the presence of `ReverseMap`, `Create` and `Delete`. -/
structure MethodSet where
  mapSig : Option MapSig
  hasReverseMap : Bool
  hasCreate : Bool
  hasDelete : Bool
deriving DecidableEq

/-- Go structural satisfaction of `Unique`: the type has a `Map` method with
the `([][]byte, error)` result signature. -/
def implementsUnique (v : MethodSet) : Bool :=
  v.mapSig == some MapSig.uniqueSig

/-- Go structural satisfaction of `NonUnique`: the type has a `Map` method
with the `([][][]byte, error)` result signature. -/
def implementsNonUnique (v : MethodSet) : Bool :=
  v.mapSig == some MapSig.nonUniqueSig

/-- Go structural satisfaction of `Reversible`: the type has a `ReverseMap`
method. -/
def implementsReversible (v : MethodSet) : Bool :=
  v.hasReverseMap

/-- Go structural satisfaction of `Functional`. The source declares
`type Functional interface { Unique }`, so the required method set is exactly
that of `Unique`. -/
def implementsFunctional (v : MethodSet) : Bool :=
  implementsUnique v

/-- Go structural satisfaction of `Lookup`: the type has both a `Create` and
a `Delete` method. -/
def implementsLookup (v : MethodSet) : Bool :=
  v.hasCreate && v.hasDelete

/-- Embeds `IsUnique` from the source: the type assertion `_, ok := v.(Unique)`,
which succeeds exactly when the dynamic type satisfies `Unique`. -/
def IsUnique (v : MethodSet) : Bool :=
  implementsUnique v

/-- A `Vindex` stub whose method set satisfies only `Unique` (hence also
`Functional`, which requires the same methods). -/
def uniqueOnlyStub : MethodSet :=
  { mapSig := some MapSig.uniqueSig, hasReverseMap := false,
    hasCreate := false, hasDelete := false }

/-- A `Vindex` stub whose method set satisfies only `NonUnique`. -/
def nonUniqueOnlyStub : MethodSet :=
  { mapSig := some MapSig.nonUniqueSig, hasReverseMap := false,
    hasCreate := false, hasDelete := false }

/-- A `NewVindexFunc` is a constructor taking the instance name and the parameter
map and returning the Go pair `(Vindex, error)`, modelled as a pair of an
optional vindex value and an optional error message. The vindex value type
`V` and the parameter-map type `P` are abstract: `CreateVindex` passes both
through untouched. -/
def NewVindexFunc (V P : Type) : Type :=
  String → P → Option V × Option String

/-- The registry `var registry = make(map[string]NewVindexFunc)`, modelled as
an association list from type names to constructors, read through
`List.lookup`. -/
def Registry (V P : Type) : Type :=
  List (String × NewVindexFunc V P)

/-- Outcome of `Register`: normal return with the updated registry, or a Go
panic carrying the panic message (the source never recovers, so a panic is a
fatal outcome). -/
inductive RegisterResult (V P : Type) where
  | ok (reg : Registry V P)
  | panic (msg : String)

/-- Embeds `Register` from the source: if `vindexType` is already a key of the
registry, panic with `vindexType + " is already registered"`; otherwise add
the binding. -/
def Register {V P : Type} (reg : Registry V P) (vindexType : String)
    (newVindexFunc : NewVindexFunc V P) : RegisterResult V P :=
  if (List.lookup vindexType reg).isSome then
    RegisterResult.panic (vindexType ++ " is already registered")
  else
    RegisterResult.ok ((vindexType, newVindexFunc) :: reg)

/-- Embeds `CreateVindex` from the source, with the registry state threaded
explicitly: look up the constructor for `vindexType`; if absent return the
unchanged registry, no vindex and the error
`"vindexType " + vindexType + " not found"`; otherwise return the unchanged
registry and exactly the pair produced by `f(name, params)`. -/
def CreateVindex {V P : Type} (reg : Registry V P) (vindexType name : String)
    (params : P) : Registry V P × (Option V × Option String) :=
  match List.lookup vindexType reg with
  | none => (reg, (none, some ("vindexType " ++ vindexType ++ " not found")))
  | some f => (reg, f name params)

/-- An operation on the registry: the only two exported operations that read
or write it. -/
inductive Op (V P : Type) where
  | register (vindexType : String) (f : NewVindexFunc V P)
  | create (vindexType name : String) (params : P)

/-- One registry transition. A `Register` that panics terminates the process,
so the registry state is not altered past it; a normal `Register` installs
the new binding; `CreateVindex` yields the registry component of its result. -/
def step {V P : Type} (reg : Registry V P) : Op V P → Registry V P
  | Op.register t f =>
      match Register reg t f with
      | RegisterResult.ok reg2 => reg2
      | RegisterResult.panic _ => reg
  | Op.create t n p => (CreateVindex reg t n p).1

/-- Run a sequence of registry operations from an initial registry. -/
def runOps {V P : Type} (reg : Registry V P) (ops : List (Op V P)) :
    Registry V P :=
  ops.foldl step reg

/-- Test fixture: a trivial constructor over unit value and parameter types
that always succeeds with no vindex value. -/
def unitConst : NewVindexFunc Unit Unit :=
  fun _ _ => (none, none)

/-- Test fixture: a constructor that rejects its parameters with a
configuration-validation error. -/
def failingConst : NewVindexFunc Unit Unit :=
  fun _ _ => (none, some "bad params")

/-- Test fixture: a constructor over `Nat` value and parameter types whose
result depends on the parameters, to observe verbatim delegation. -/
def natConst : NewVindexFunc Nat Nat :=
  fun _ p => (some (p + 1), none)

/- Helper lemmas shared by several claim proofs. -/

/-- Inversion for a successful `Register`: the name was absent and the result
registry is the old one with the new binding at the front. -/
theorem register_ok_inv {V P : Type} {reg reg2 : Registry V P} {t : String}
    {f : NewVindexFunc V P} (h : Register reg t f = RegisterResult.ok reg2) :
    List.lookup t reg = none ∧ reg2 = (t, f) :: reg := by
  unfold Register at h
  by_cases hl : (List.lookup t reg).isSome
  · simp [hl] at h
  · simp [hl] at h
    exact ⟨Option.not_isSome_iff_eq_none.mp hl, h.symm⟩

/-- The registry component of a `CreateVindex` result is always the input
registry: the source only reads the map. -/
theorem createVindex_fst {V P : Type} (reg : Registry V P) (t n : String)
    (p : P) : (CreateVindex reg t n p).1 = reg := by
  unfold CreateVindex
  cases List.lookup t reg <;> rfl

/-- Any binding present in the registry survives one `step`, whichever
operation it is. -/
theorem lookup_step_preserved {V P : Type} (reg : Registry V P) (op : Op V P)
    {t : String} {f : NewVindexFunc V P} (h : List.lookup t reg = some f) :
    List.lookup t (step reg op) = some f := by
  cases op with
  | register u g =>
    simp only [step]
    cases hr : Register reg u g with
    | ok reg2 =>
      obtain ⟨hnone, rfl⟩ := register_ok_inv hr
      have hne : (t == u) = false := by
        apply beq_eq_false_iff_ne.mpr
        intro he
        rw [he, hnone] at h
        exact Option.noConfusion h
      simp [List.lookup, hne, h]
    | panic m => exact h
  | create u n p =>
    rw [step, createVindex_fst]
    exact h

/-- Claim C1: for every type name absent from the registry and all instance
names and parameter maps, `CreateVindex` returns no vindex instance together
with the not-found error, whose text contains the type name. -/
theorem createVindex_unregistered {V P : Type} (reg : Registry V P)
    (vindexType name : String) (params : P)
    (h : List.lookup vindexType reg = none) :
    (CreateVindex reg vindexType name params).2 =
      (none, some ("vindexType " ++ vindexType ++ " not found")) ∧
    ∃ pre suf,
      "vindexType " ++ vindexType ++ " not found" = pre ++ vindexType ++ suf := by
  refine ⟨?_, "vindexType ", " not found", rfl⟩
  unfold CreateVindex
  rw [h]

/-- Witness for C1 at the spec scenario: type `"nonexistent"` on an empty
registry, instance name `"idx2"`. -/
theorem createVindex_unregistered_witness :
    List.lookup "nonexistent" ([] : Registry Unit Unit) = none ∧
    ((CreateVindex ([] : Registry Unit Unit) "nonexistent" "idx2" ()).2 =
      (none, some ("vindexType " ++ "nonexistent" ++ " not found")) ∧
    ∃ pre suf, "vindexType " ++ "nonexistent" ++ " not found" =
      pre ++ "nonexistent" ++ suf) :=
  ⟨rfl, createVindex_unregistered [] "nonexistent" "idx2" () rfl⟩

/-- Claim C2: for a registered type name, `CreateVindex` passes the instance
name and the parameter map verbatim to the registered constructor and returns
exactly the constructor result pair, successful or erroneous, unchanged. -/
theorem createVindex_delegates {V P : Type} (reg : Registry V P)
    (vindexType name : String) (params : P) (f : NewVindexFunc V P)
    (h : List.lookup vindexType reg = some f) :
    (CreateVindex reg vindexType name params).2 = f name params := by
  unfold CreateVindex
  rw [h]

/-- Witness for C2: a registered constructor whose result depends on the
parameters is called verbatim. -/
theorem createVindex_delegates_witness :
    List.lookup "hash" [("hash", natConst)] = some natConst ∧
    (CreateVindex [("hash", natConst)] "hash" "idx" 41).2 = natConst "idx" 41 :=
  ⟨rfl, createVindex_delegates [("hash", natConst)] "hash" "idx" 41 natConst rfl⟩

/-- Claim C3: `Register` on a type name already present panics — the fatal,
non-recovered outcome — and consequently `Register` followed by another
`Register` under the same name panics, for every type name. -/
theorem register_duplicate_fatal :
    (∀ (V P : Type) (reg : Registry V P) (t : String) (f : NewVindexFunc V P),
      (List.lookup t reg).isSome = true →
      Register reg t f = RegisterResult.panic (t ++ " is already registered")) ∧
    (∀ (V P : Type) (reg reg2 : Registry V P) (t : String)
      (f g : NewVindexFunc V P),
      Register reg t f = RegisterResult.ok reg2 →
      Register reg2 t g = RegisterResult.panic (t ++ " is already registered")) := by
  constructor
  · intro V P reg t f h
    simp [Register, h]
  · intro V P reg reg2 t f g h
    obtain ⟨hnone, rfl⟩ := register_ok_inv h
    simp [Register, List.lookup]

/-- Witness for C3: re-registering `"hash"` panics with the duplicate
message. -/
theorem register_duplicate_fatal_witness :
    (List.lookup "hash" [("hash", unitConst)]).isSome = true ∧
    Register [("hash", unitConst)] "hash" unitConst =
      RegisterResult.panic ("hash" ++ " is already registered") :=
  ⟨rfl, register_duplicate_fatal.1 Unit Unit [("hash", unitConst)] "hash"
    unitConst rfl⟩

/-- Claim C4: `IsUnique` agrees with structural satisfaction of `Unique`:
it equals the `Unique` capability check on every method set, holds on the
Unique-only stub and fails on the NonUnique-only stub. -/
theorem isUnique_characterisation :
    (∀ v : MethodSet, IsUnique v = implementsUnique v) ∧
    (∀ v : MethodSet, IsUnique v = true ↔ v.mapSig = some MapSig.uniqueSig) ∧
    IsUnique uniqueOnlyStub = true ∧ IsUnique nonUniqueOnlyStub = false := by
  refine ⟨fun v => rfl, fun v => ?_, rfl, rfl⟩
  simp [IsUnique, implementsUnique]

/-- Claim C5: every method set satisfying `Functional` satisfies `Unique`,
hence `IsUnique` returns true on it. -/
theorem functional_implies_unique (v : MethodSet)
    (h : implementsFunctional v = true) :
    implementsUnique v = true ∧ IsUnique v = true :=
  ⟨h, h⟩

/-- Witness for C5 at the Unique-only stub, which satisfies `Functional`. -/
theorem functional_implies_unique_witness :
    implementsFunctional uniqueOnlyStub = true ∧
    (implementsUnique uniqueOnlyStub = true ∧ IsUnique uniqueOnlyStub = true) :=
  ⟨rfl, functional_implies_unique uniqueOnlyStub rfl⟩

/-- Counterexample to C6 as stated: the subset {Unique, NonUnique} is not
realizable — both interfaces require a method named `Map` with conflicting
result types, so no method set satisfies both — and the subset {Unique}
without Functional is not realizable either, since `Functional` requires
exactly the methods of `Unique`. -/
theorem capability_subset_counterexample :
    (¬ ∃ v : MethodSet,
        implementsUnique v = true ∧ implementsNonUnique v = true) ∧
    (¬ ∃ v : MethodSet,
        implementsUnique v = true ∧ implementsFunctional v = false) := by
  constructor
  · rintro ⟨v, h1, h2⟩
    simp [implementsUnique, implementsNonUnique] at h1 h2
    rw [h1] at h2
    simp at h2
  · rintro ⟨v, h1, h2⟩
    simp only [implementsFunctional] at h2
    rw [h1] at h2
    exact Bool.noConfusion h2

/-- Claim C6 amended: a strategy may satisfy any subset of the five
capabilities that contains `Functional` exactly when it contains `Unique`
and does not contain both `Unique` and `NonUnique`; every such subset is
realized exactly by some method set. -/
theorem capability_subsets_realizable (u nu r fn lk : Bool)
    (hfn : fn = u) (hx : (u && nu) = false) :
    ∃ v : MethodSet, implementsUnique v = u ∧ implementsNonUnique v = nu ∧
      implementsReversible v = r ∧ implementsFunctional v = fn ∧
      implementsLookup v = lk := by
  refine ⟨⟨if u then some MapSig.uniqueSig
           else if nu then some MapSig.nonUniqueSig else none, r, lk, lk⟩, ?_⟩
  cases u <;> cases nu <;> cases fn <;>
    simp_all [implementsUnique, implementsNonUnique, implementsReversible,
      implementsFunctional, implementsLookup]

/-- Witness for the amended C6 at the subset {Unique, Reversible, Functional,
Lookup-backed}. -/
theorem capability_subsets_realizable_witness :
    (true = true) ∧ ((true && false) = false) ∧
    ∃ v : MethodSet, implementsUnique v = true ∧ implementsNonUnique v = false ∧
      implementsReversible v = true ∧ implementsFunctional v = true ∧
      implementsLookup v = true :=
  ⟨rfl, rfl, capability_subsets_realizable true false true true true rfl rfl⟩

/-- Claim C7: the registry is monotone over any sequence of `Register` and
`CreateVindex` operations: a binding present initially is still present,
bound to the same constructor, after the whole sequence. -/
theorem registry_monotone {V P : Type} (ops : List (Op V P))
    (reg : Registry V P) (t : String) (f : NewVindexFunc V P)
    (h : List.lookup t reg = some f) :
    List.lookup t (runOps reg ops) = some f := by
  induction ops generalizing reg with
  | nil => exact h
  | cons op rest ih =>
    simp only [runOps, List.foldl] at ih ⊢
    exact ih (step reg op) (lookup_step_preserved reg op h)

/-- Witness for C7: the binding of `"hash"` survives a read, a duplicate
registration attempt and a fresh registration. -/
theorem registry_monotone_witness :
    List.lookup "hash" [("hash", unitConst)] = some unitConst ∧
    List.lookup "hash"
      (runOps [("hash", unitConst)]
        [Op.create "hash" "i" (), Op.register "hash" failingConst,
         Op.register "other" unitConst]) = some unitConst :=
  ⟨rfl, registry_monotone
    [Op.create "hash" "i" (), Op.register "hash" failingConst,
     Op.register "other" unitConst] [("hash", unitConst)] "hash" unitConst rfl⟩

/-- Claim C8: a failed `CreateVindex` is atomic with respect to the registry:
whenever the call returns an error, the registry after the call equals the
registry before it. -/
theorem createVindex_failure_atomic {V P : Type} (reg : Registry V P)
    (t n : String) (p : P) (e : String)
    (h : (CreateVindex reg t n p).2.2 = some e) :
    (CreateVindex reg t n p).1 = reg :=
  createVindex_fst reg t n p

/-- Witness for C8: a constructor that rejects its parameters returns an
error and leaves the registry untouched. -/
theorem createVindex_failure_atomic_witness :
    (CreateVindex [("lkp", failingConst)] "lkp" "i" ()).2.2 =
      some "bad params" ∧
    (CreateVindex [("lkp", failingConst)] "lkp" "i" ()).1 =
      [("lkp", failingConst)] :=
  ⟨rfl, createVindex_failure_atomic [("lkp", failingConst)] "lkp" "i" ()
    "bad params" rfl⟩

/-- Claim C9: `CreateVindex` is a pure read of the registry regardless of
outcome, and the only operation whose step can change the registry is a
`Register`. -/
theorem createVindex_pure_read :
    (∀ (V P : Type) (reg : Registry V P) (t n : String) (p : P),
      (CreateVindex reg t n p).1 = reg) ∧
    (∀ (V P : Type) (reg : Registry V P) (op : Op V P),
      step reg op ≠ reg →
      ∃ t f, op = Op.register t f) := by
  constructor
  · intro V P reg t n p
    exact createVindex_fst reg t n p
  · intro V P reg op hne
    cases op with
    | register t f => exact ⟨t, f, rfl⟩
    | create t n p =>
      rw [step, createVindex_fst] at hne
      exact absurd rfl hne

/-- Witness for C9: a fresh registration does change the registry, and the
changing operation is indeed a `Register`. -/
theorem createVindex_pure_read_witness :
    step ([] : Registry Unit Unit) (Op.register "a" unitConst) ≠ [] ∧
    ∃ t f, (Op.register "a" unitConst : Op Unit Unit) = Op.register t f := by
  have hne : step ([] : Registry Unit Unit) (Op.register "a" unitConst) ≠ [] := by
    simp [step, Register]
  exact ⟨hne, createVindex_pure_read.2 Unit Unit [] (Op.register "a" unitConst) hne⟩

/-- Claim C10: registering a fresh name never panics and extends the registry
by exactly the one new binding, leaving every other lookup unchanged. -/
theorem register_fresh_succeeds {V P : Type} (reg : Registry V P)
    (t : String) (f : NewVindexFunc V P) (u : String)
    (h : List.lookup t reg = none) :
    Register reg t f = RegisterResult.ok ((t, f) :: reg) ∧
    List.lookup u ((t, f) :: reg) =
      if u = t then some f else List.lookup u reg := by
  constructor
  · simp [Register, h]
  · by_cases hu : u = t
    · subst hu
      simp [List.lookup]
    · simp [List.lookup, beq_eq_false_iff_ne.mpr hu, hu]

/-- Witness for C10: registering `"hash"` on the empty registry yields the
singleton registry, and a lookup of a different name is unaffected. -/
theorem register_fresh_succeeds_witness :
    List.lookup "hash" ([] : Registry Unit Unit) = none ∧
    (Register ([] : Registry Unit Unit) "hash" unitConst =
        RegisterResult.ok [("hash", unitConst)] ∧
      List.lookup "other" [("hash", unitConst)] =
        if "other" = "hash" then some unitConst
        else List.lookup "other" ([] : Registry Unit Unit)) :=
  ⟨rfl, register_fresh_succeeds [] "hash" unitConst "other" rfl⟩

end Planbuilder
